import Mathlib

/-!
Verification of the AI data analyst app (src/app.py) against its design
specification.

The app is a thin orchestration layer: a file-upload loop that loads CSV
files into an in-memory sqlite store and builds a schema text, a query
runner with a try/except wrapper, and two calls to an external language
model (query synthesis and result narration).

Modelling choices.
Python strings are modelled as lists of Unicode code points (List Nat), so
that the Python string operations used by app.py (replace, strip, lower,
split) become executable list functions.  The external services are
modelled as oracle parameters returning Except values: the Groq chat
completion endpoint (used by call_ai), the pandas CSV reader pd.read_csv
(raises on a malformed file), and the sqlite query engine behind
pd.read_sql_query.  Everything the app itself does is translated function
by function from src/app.py.
-/

set_option maxRecDepth 4000

/-- A Python string, as its list of Unicode code points. -/
abbrev Str := List Nat

/-- Code points of a Lean string literal. -/
def pyStr (s : String) : Str := s.data.map Char.toNat

/-- Python whitespace test used by str.strip, restricted to the ASCII
whitespace characters: space 32, tab 9, newline 10, return 13, vertical
tab 11, form feed 12. -/
def isWs (n : Nat) : Bool :=
  n == 32 || n == 9 || n == 10 || n == 13 || n == 11 || n == 12

/-- Python str.strip: drop leading and trailing whitespace. -/
def pyStrip (s : Str) : Str :=
  ((s.dropWhile isWs).reverse.dropWhile isWs).reverse

/-- ASCII lower-casing of one code point, as Python str.lower acts on
ASCII: code points 65-90 are the upper-case letters A-Z. -/
def lowerChar (n : Nat) : Nat := if 65 ≤ n ∧ n ≤ 90 then n + 32 else n

/-- Python str.lower (ASCII model). -/
def pyLower (s : Str) : Str := s.map lowerChar

/-- Whether the pattern is an initial segment of the string. -/
def startsWith : Str → Str → Bool
  | [], _ => true
  | _ :: _, [] => false
  | p :: ps, c :: cs => p == c && startsWith ps cs

/-- Fuelled engine for Python str.replace with a nonempty pattern: the
leftmost occurrences of old are replaced by new, scanning left to right,
non-overlapping.  All replace call sites in app.py use nonempty fixed
patterns, so the Python behaviour of an empty pattern is not modelled. -/
def replFuel (old new : Str) : Nat → Str → Str
  | _, [] => []
  | 0, s => s
  | fuel + 1, c :: cs =>
    if startsWith old (c :: cs) then
      new ++ replFuel old new fuel (cs.drop (old.length - 1))
    else
      c :: replFuel old new fuel cs

/-- Python str.replace old new, for a nonempty pattern old. -/
def listReplace (old new s : Str) : Str := replFuel old new s.length s

/-- Python split on the statement terminator, first component:
raw.split of a semicolon, index zero, is everything before the first
semicolon (code point 59). -/
def beforeSemi (s : Str) : Str := s.takeWhile (fun n => n != 59)

/-- One uploaded file: only the name is used by the app code itself; the
content is read through the pandas oracle. -/
structure UpFile where
  name : Str
deriving DecidableEq

/-- A pandas data frame: ordered column names and rows.  Cell values are
opaque to every claim, so they are modelled as code point strings. -/
structure Df where
  cols : List Str
  rows : List (List Str)
deriving DecidableEq

/-- pandas DataFrame.empty: true when either axis has length zero. -/
def Df.isEmpty (d : Df) : Bool := d.rows.isEmpty || d.cols.isEmpty

/-- The empty frame pd.DataFrame(): zero rows and zero columns. -/
def emptyDf : Df := ⟨[], []⟩

/-- Line 34 of app.py:
table = file.name.replace of ".csv" to "", then .lower, then
.replace of " " to "_". -/
def tableName (fname : Str) : Str :=
  listReplace (pyStr (" ")) (pyStr ("_"))
    (pyLower (listReplace (pyStr (".csv")) [] fname))

/-- Line 35 of app.py: df.columns gets c.strip then .replace of " " to
"_" for each column c. -/
def normalizeCols (cs : List Str) : List Str :=
  cs.map (fun c => listReplace (pyStr (" ")) (pyStr ("_")) (pyStrip c))

/-- The sqlite store contents: named relations.  df.to_sql with
if_exists set to replace overwrites the relation of the same name and
otherwise appends a new one. -/
def setTable : List (Str × Df) → Str → Df → List (Str × Df)
  | [], n, d => [(n, d)]
  | (m, e) :: ts, n, d =>
    if m = n then (n, d) :: ts else (m, e) :: setTable ts n d

/-- Look a relation up by name in the store. -/
def getTable : List (Str × Df) → Str → Option Df
  | [], _ => none
  | (m, e) :: ts, n => if m = n then some e else getTable ts n

/-- Line 39 of app.py: the schema line appended for one table, the table
name followed by the comma-joined column list in parentheses and a
newline. -/
def schemaLine (t : Str) (cols : List Str) : Str :=
  t ++ pyStr ("(") ++ List.intercalate (pyStr (", ")) cols ++ pyStr (")\n")

/-- Session state built by the upload loop of lines 27-39: the sqlite
store and the schema text. -/
structure LoadState where
  tables : List (Str × Df)
  schema : Str
deriving DecidableEq

/-- One iteration of the upload loop, lines 31-39 of app.py: read the
file through the pandas oracle (pd.read_csv raises on a malformed file,
which aborts the whole script run, modelled as Except.error), derive the
table name, normalize the column names, store the frame replacing any
same-named relation, append the schema line. -/
def loadFile (readCsv : UpFile → Except Str Df) (st : LoadState) (f : UpFile) :
    Except Str LoadState :=
  match readCsv f with
  | Except.error e => Except.error e
  | Except.ok d =>
    let t := tableName f.name
    let cols := normalizeCols d.cols
    Except.ok ⟨setTable st.tables t ⟨cols, d.rows⟩, st.schema ++ schemaLine t cols⟩

/-- The upload loop continued from a given state. -/
def loadFilesFrom (readCsv : UpFile → Except Str Df) (st : LoadState) :
    List UpFile → Except Str LoadState
  | [] => Except.ok st
  | f :: fs =>
    match loadFile readCsv st f with
    | Except.error e => Except.error e
    | Except.ok st2 => loadFilesFrom readCsv st2 fs

/-- Lines 27-39 of app.py: the upload loop over all files, starting from
an empty store and an empty schema text. -/
def loadFiles (readCsv : UpFile → Except Str Df) (files : List UpFile) :
    Except Str LoadState :=
  loadFilesFrom readCsv ⟨[], []⟩ files

/-- Lines 44-49 of app.py, run_sql.  The sqlite engine behind
pd.read_sql_query is the oracle execQ; on failure the exception is
caught, an error banner is emitted through st.error with the text
"SQL Error: " followed by the exception text, and the empty frame is
returned.  The second component collects the emitted error banners. -/
def run_sql (execQ : Str → Except Str Df) (query : Str) : Df × List Str :=
  match execQ query with
  | Except.ok d => (d, [])
  | Except.error e => (emptyDf, [pyStr ("SQL Error: ") ++ e])

/-- Lines 52-62 of app.py, call_ai.  The Groq chat completion is the
oracle api; a failed call raises, modelled as Except.error; a successful
response content is whitespace-stripped. -/
def call_ai (api : Str → Except Str Str) (prompt : Str) : Except Str Str :=
  (api prompt).map pyStrip

/-- Lines 66-82 of app.py: the synthesis prompt template around the
schema text and the user question. -/
def askPrompt (schema question : Str) : Str :=
  pyStr ("\nYou are a data analyst.\n\nHere is the database schema:\n") ++
  schema ++
  pyStr ("\n\nRules:\n- Use only these tables and columns\n- Use table.column format\n- No guessing columns\n- If revenue not present, calculate as quantity * price\n- Write ONE SQLite query\n- No explanation\n\nUser question:\n") ++
  question ++ pyStr ("\n")

/-- Lines 84-85 of app.py: strip the code fence markers, strip
whitespace, take the text before the first semicolon, re-append a
semicolon (code point 59). -/
def askExtract (raw : Str) : Str :=
  beforeSemi
    (pyStrip (listReplace (pyStr ("```")) []
      (listReplace (pyStr ("```sql")) [] raw))) ++ [59]

/-- Lines 65-85 of app.py, ask_ai: build the prompt, call the model,
post-process the response. -/
def ask_ai (api : Str → Except Str Str) (schema question : Str) :
    Except Str Str :=
  (call_ai api (askPrompt schema question)).map askExtract

/-- Rendering of df.head(10).to_string with index hidden, used by
explain.  The renderer itself is pandas library code outside the
repository; it is modelled as a plain space-separated rendering of the
column names and the first ten rows, on which no claim depends. -/
def dfPreview (d : Df) : Str :=
  List.intercalate (pyStr ("\n"))
    (List.intercalate (pyStr (" ")) d.cols ::
      (d.rows.take 10).map (List.intercalate (pyStr (" "))))

/-- Lines 94-104 of app.py: the narration prompt template around the
preview. -/
def explainPrompt (d : Df) : Str :=
  pyStr ("\nYou are a senior business analyst.\n\nHere is a table of results:\n") ++
  dfPreview d ++
  pyStr ("\n\nWrite a clear 2–3 sentence business summary.\nDo not mention SQL.\nDo not repeat the numbers exactly.\nExplain what this means for the business.\n")

/-- The fixed no-data message of line 90 of app.py. -/
def noDataMsg : Str := pyStr ("No data was returned for this question.")

/-- Lines 88-106 of app.py, explain.  The second component counts the
calls made to the external model by this function. -/
def explain (api : Str → Except Str Str) (d : Df) : Except Str Str × Nat :=
  if d.isEmpty then (Except.ok noDataMsg, 0)
  else (call_ai api (explainPrompt d), 1)

/-- Whether the pattern is a final segment of the string. -/
def endsWith (pat s : Str) : Bool := startsWith pat.reverse s.reverse

/-- Stated from the wording of the specification, for comparison with
tableName: the file name without a trailing ".csv" extension (only a
trailing occurrence removed), lower-cased, spaces replaced with
underscores. -/
def specTableName (s : Str) : Str :=
  listReplace (pyStr (" ")) (pyStr ("_"))
    (pyLower (if endsWith (pyStr (".csv")) s then s.take (s.length - 4) else s))

/-- Stated from the wording of claim C10, for comparison with the
replace call of line 34: delete every occurrence of ".csv" (code points
46, 99, 115, 118), scanning left to right. -/
def removeAllCsv : Str → Str
  | [] => []
  | 46 :: 99 :: 115 :: 118 :: rest => removeAllCsv rest
  | c :: cs => c :: removeAllCsv cs

/-! ### Basic facts about the string model -/

theorem pyStr_space : pyStr (" ") = [32] := rfl

theorem pyStr_underscore : pyStr ("_") = [95] := rfl

theorem pyStr_csv : pyStr (".csv") = [46, 99, 115, 118] := rfl

/-- Replacement with a one-character pattern and a one-character image is
a pointwise substitution. -/
theorem replFuel_single (a b : Nat) :
    ∀ (fuel : Nat) (s : Str), s.length ≤ fuel →
      replFuel [a] [b] fuel s = s.map (fun c => if c = a then b else c) := by
  intro fuel
  induction fuel with
  | zero =>
    intro s hs
    cases s with
    | nil => rfl
    | cons c cs => simp at hs
  | succ m ih =>
    intro s hs
    cases s with
    | nil => rfl
    | cons c cs =>
      have hcs : cs.length ≤ m := by
        simp only [List.length_cons] at hs
        omega
      by_cases h : a = c
      · subst h
        simp [replFuel, startsWith, ih cs hcs]
      · have hne : c ≠ a := fun hc => h hc.symm
        simp [replFuel, startsWith, Ne.symm hne, hne, ih cs hcs]

/-- The space-to-underscore replace of app.py is a pointwise
substitution of code point 32 by code point 95. -/
theorem listReplace_space_underscore (s : Str) :
    listReplace (pyStr (" ")) (pyStr ("_")) s =
      s.map (fun c => if c = 32 then 95 else c) := by
  unfold listReplace
  rw [pyStr_space, pyStr_underscore]
  exact replFuel_single 32 95 s.length s le_rfl

/-- ASCII lower-casing never yields an upper-case letter code point. -/
theorem lowerChar_not_upper (n : Nat) : ¬(65 ≤ lowerChar n ∧ lowerChar n ≤ 90) := by
  unfold lowerChar
  split <;> omega

/-- The head of a dropWhile result does not satisfy the predicate. -/
theorem dropWhile_head_not (p : Nat → Bool) :
    ∀ (l : Str) (c : Nat), (l.dropWhile p).head? = some c → p c = false := by
  intro l
  induction l with
  | nil => intro c h; simp [List.dropWhile] at h
  | cons x xs ih =>
    intro c h
    rw [List.dropWhile_cons] at h
    by_cases hp : p x
    · rw [if_pos hp] at h
      exact ih c h
    · rw [if_neg hp] at h
      simp only [List.head?_cons, Option.some.injEq] at h
      subst h
      exact Bool.eq_false_iff.mpr hp

/-- dropWhile keeps the last element of the list when its result is
nonempty. -/
theorem getLast_dropWhile (p : Nat → Bool) :
    ∀ (l : Str) (c : Nat), (l.dropWhile p).getLast? = some c → l.getLast? = some c := by
  intro l
  induction l with
  | nil => intro c h; simp [List.dropWhile] at h
  | cons x xs ih =>
    intro c h
    rw [List.dropWhile_cons] at h
    by_cases hp : p x
    · rw [if_pos hp] at h
      have hx := ih c h
      cases xs with
      | nil => simp at hx
      | cons y ys => rw [List.getLast?_cons_cons]; exact hx
    · rw [if_neg hp] at h
      exact h

/-- The first character of a stripped string is not whitespace. -/
theorem pyStrip_head_not_ws (l : Str) (c : Nat)
    (h : (pyStrip l).head? = some c) : isWs c = false := by
  unfold pyStrip at h
  rw [List.head?_reverse] at h
  have h2 := getLast_dropWhile isWs (l.dropWhile isWs).reverse c h
  rw [List.getLast?_reverse] at h2
  exact dropWhile_head_not isWs l c h2

/-- The last character of a stripped string is not whitespace. -/
theorem pyStrip_getLast_not_ws (l : Str) (c : Nat)
    (h : (pyStrip l).getLast? = some c) : isWs c = false := by
  unfold pyStrip at h
  rw [List.getLast?_reverse] at h
  exact dropWhile_head_not isWs (l.dropWhile isWs).reverse c h

/-- Everything before the first semicolon contains no semicolon. -/
theorem beforeSemi_count (s : Str) : List.count 59 (beforeSemi s) = 0 := by
  rw [List.count_eq_zero]
  intro hmem
  have := List.mem_takeWhile_imp hmem
  simp at this

/-! ### Facts about the store and the upload loop -/

/-- Storing a frame under a name makes it the frame found under that
name: the replace semantics of df.to_sql. -/
theorem getTable_setTable (ts : List (Str × Df)) (n : Str) (d : Df) :
    getTable (setTable ts n d) n = some d := by
  induction ts with
  | nil => simp [setTable, getTable]
  | cons p ts ih =>
    obtain ⟨m, e⟩ := p
    by_cases h : m = n
    · simp [setTable, getTable, h]
    · simp [setTable, getTable, h, ih]

/-- A key of the store after a setTable is the stored name or an old
key. -/
theorem mem_keys_setTable (ts : List (Str × Df)) (n m : Str) (d : Df)
    (h : m ∈ (setTable ts n d).map Prod.fst) :
    m = n ∨ m ∈ ts.map Prod.fst := by
  induction ts with
  | nil =>
    rw [show setTable [] n d = [(n, d)] from rfl] at h
    rw [List.map_cons, List.mem_cons] at h
    rcases h with h | h
    · exact Or.inl h
    · simp at h
  | cons p ts ih =>
    obtain ⟨k, e⟩ := p
    by_cases hk : k = n
    · rw [show setTable ((k, e) :: ts) n d = (n, d) :: ts by simp [setTable, hk]] at h
      rw [List.map_cons, List.mem_cons] at h
      rcases h with h | h
      · exact Or.inl h
      · rw [List.map_cons, List.mem_cons]
        exact Or.inr (Or.inr h)
    · rw [show setTable ((k, e) :: ts) n d = (k, e) :: setTable ts n d by
        simp [setTable, hk]] at h
      rw [List.map_cons, List.mem_cons] at h
      rcases h with h | h
      · rw [List.map_cons, List.mem_cons]
        exact Or.inr (Or.inl h)
      · rcases ih h with h1 | h1
        · exact Or.inl h1
        · rw [List.map_cons, List.mem_cons]
          exact Or.inr (Or.inr h1)

/-- setTable keeps the store keys duplicate-free. -/
theorem nodup_keys_setTable (ts : List (Str × Df)) (n : Str) (d : Df)
    (h : (ts.map Prod.fst).Nodup) : ((setTable ts n d).map Prod.fst).Nodup := by
  induction ts with
  | nil => simp [setTable]
  | cons p ts ih =>
    obtain ⟨k, e⟩ := p
    simp only [List.map_cons, List.nodup_cons] at h
    by_cases hk : k = n
    · subst hk
      rw [show setTable ((k, e) :: ts) k d = (k, d) :: ts by simp [setTable]]
      simp only [List.map_cons, List.nodup_cons]
      exact h
    · rw [show setTable ((k, e) :: ts) n d = (k, e) :: setTable ts n d by
        simp [setTable, hk]]
      simp only [List.map_cons, List.nodup_cons]
      refine ⟨fun hmem => ?_, ih h.2⟩
      rcases mem_keys_setTable ts n k d hmem with h1 | h1
      · exact hk h1
      · exact h.1 h1

/-- The upload loop splits over list append. -/
theorem loadFilesFrom_append (r : UpFile → Except Str Df) :
    ∀ (fs1 fs2 : List UpFile) (st : LoadState),
      loadFilesFrom r st (fs1 ++ fs2) =
        match loadFilesFrom r st fs1 with
        | Except.ok s => loadFilesFrom r s fs2
        | Except.error e => Except.error e := by
  intro fs1
  induction fs1 with
  | nil => intro fs2 st; rfl
  | cons f fs ih =>
    intro fs2 st
    simp only [List.cons_append, loadFilesFrom]
    cases loadFile r st f with
    | error e => rfl
    | ok st2 => exact ih fs2 st2

/-- The upload loop keeps the store keys duplicate-free. -/
theorem loadFilesFrom_nodup (r : UpFile → Except Str Df) :
    ∀ (fs : List UpFile) (st s : LoadState),
      (st.tables.map Prod.fst).Nodup →
      loadFilesFrom r st fs = Except.ok s →
      (s.tables.map Prod.fst).Nodup := by
  intro fs
  induction fs with
  | nil =>
    intro st s h he
    simp only [loadFilesFrom] at he
    cases he
    exact h
  | cons f fs ih =>
    intro st s h he
    simp only [loadFilesFrom] at he
    cases hf : loadFile r st f with
    | error e => rw [hf] at he; cases he
    | ok st2 =>
      rw [hf] at he
      have h2 : (st2.tables.map Prod.fst).Nodup := by
        unfold loadFile at hf
        cases hrd : r f with
        | error e => rw [hrd] at hf; cases hf
        | ok d =>
          rw [hrd] at hf
          cases hf
          exact nodup_keys_setTable _ _ _ h
      exact ih st2 s h2 he

/-! ### The replace of line 34 removes every ".csv" occurrence -/

/-- Unfolding of startsWith at the ".csv" pattern. -/
theorem startsWith_csv (c1 c2 c3 c4 : Nat) (rest : Str) :
    startsWith [46, 99, 115, 118] (c1 :: c2 :: c3 :: c4 :: rest) =
      decide (c1 = 46 ∧ c2 = 99 ∧ c3 = 115 ∧ c4 = 118) := by
  by_cases h1 : c1 = 46 <;> by_cases h2 : c2 = 99 <;> by_cases h3 : c3 = 115 <;>
    by_cases h4 : c4 = 118 <;> simp [startsWith, h1, h2, h3, h4] <;> omega

/-- The fuelled replace with the ".csv" pattern and empty image agrees
with the direct scanning deletion. -/
theorem replFuel_csv_eq_remove :
    ∀ (fuel : Nat) (s : Str), s.length ≤ fuel →
      replFuel [46, 99, 115, 118] [] fuel s = removeAllCsv s := by
  intro fuel
  induction fuel with
  | zero =>
    intro s hs
    cases s with
    | nil => rfl
    | cons c cs => simp at hs
  | succ m ih =>
    intro s hs
    rcases s with _ | ⟨c1, _ | ⟨c2, _ | ⟨c3, _ | ⟨c4, rest⟩⟩⟩⟩
    · rfl
    · simp only [replFuel, startsWith, Bool.and_false, Bool.and_true, if_neg,
        Bool.false_eq_true, not_false_iff]
      simp [replFuel, removeAllCsv]
    · have h1 : ([c2] : Str).length ≤ m := by simp at hs ⊢; omega
      simp only [List.length_cons] at hs
      simp [replFuel, startsWith, ih [c2] h1, removeAllCsv]
    · have h1 : ([c2, c3] : Str).length ≤ m := by simp at hs ⊢; omega
      simp [replFuel, startsWith, ih [c2, c3] h1, removeAllCsv]
    · simp only [List.length_cons] at hs
      by_cases hc : c1 = 46 ∧ c2 = 99 ∧ c3 = 115 ∧ c4 = 118
      · obtain ⟨hc1, hc2, hc3, hc4⟩ := hc
        subst hc1; subst hc2; subst hc3; subst hc4
        have hrest : rest.length ≤ m := by omega
        simp [replFuel, startsWith, removeAllCsv, ih rest hrest]
      · have hsw : startsWith [46, 99, 115, 118] (c1 :: c2 :: c3 :: c4 :: rest) = false := by
          rw [startsWith_csv]
          exact decide_eq_false hc
        have htl : (c2 :: c3 :: c4 :: rest).length ≤ m := by simp; omega
        rw [show replFuel [46, 99, 115, 118] [] (m + 1) (c1 :: c2 :: c3 :: c4 :: rest) =
          c1 :: replFuel [46, 99, 115, 118] [] m (c2 :: c3 :: c4 :: rest) by
            simp [replFuel, hsw]]
        rw [ih (c2 :: c3 :: c4 :: rest) htl]
        have hrm : removeAllCsv (c1 :: c2 :: c3 :: c4 :: rest) =
            c1 :: removeAllCsv (c2 :: c3 :: c4 :: rest) := by
          rcases Nat.decEq c1 46 with h1 | h1
          · simp [removeAllCsv, h1]
          · subst h1
            rcases Nat.decEq c2 99 with h2 | h2
            · simp [removeAllCsv, h2]
            · subst h2
              rcases Nat.decEq c3 115 with h3 | h3
              · simp [removeAllCsv, h3]
              · subst h3
                rcases Nat.decEq c4 118 with h4 | h4
                · simp [removeAllCsv, h4]
                · subst h4
                  exact absurd ⟨rfl, rfl, rfl, rfl⟩ hc
        rw [hrm]

/-- The replace call of line 34 with the ".csv" pattern is exactly the
scanning deletion of every ".csv" occurrence. -/
theorem listReplace_csv (s : Str) :
    listReplace (pyStr (".csv")) [] s = removeAllCsv s := by
  unfold listReplace
  rw [pyStr_csv]
  exact replFuel_csv_eq_remove s.length s le_rfl

/-- The upload loop over a one-element list is just one load step. -/
theorem loadFilesFrom_single (r : UpFile → Except Str Df) (st : LoadState)
    (f : UpFile) : loadFilesFrom r st [f] = loadFile r st f := by
  unfold loadFilesFrom
  cases loadFile r st f <;> rfl

/-! ### Concrete upload scenarios used by the claims -/

/-- pandas oracle for the sales.csv scenario: the header row
"Date, Product, Quantity, Price" split at commas, as pd.read_csv parses
it (no skipinitialspace, so the blanks after the commas stay). -/
def rdSales : UpFile → Except Str Df :=
  fun _ => Except.ok
    ⟨[pyStr ("Date"), pyStr (" Product"), pyStr (" Quantity"), pyStr (" Price")], []⟩

/-- Resulting state of the sales.csv scenario. -/
def stSales : LoadState :=
  ⟨[(pyStr ("sales"),
     ⟨[pyStr ("Date"), pyStr ("Product"), pyStr ("Quantity"), pyStr ("Price")], []⟩)],
   pyStr ("sales(Date, Product, Quantity, Price)\n")⟩

/-- pandas oracle with one malformed file: bad.csv raises a parser
error, every other file reads fine. -/
def rdBadGood : UpFile → Except Str Df :=
  fun f =>
    if f.name = pyStr ("bad.csv") then Except.error (pyStr ("parse error"))
    else Except.ok ⟨[pyStr ("a")], []⟩

/-- pandas oracle for two files whose names derive the same table name
"sales": Sales.csv has column a, sales.csv has column b. -/
def rdTwoSales : UpFile → Except Str Df :=
  fun f =>
    if f.name = pyStr ("Sales.csv") then Except.ok ⟨[pyStr ("a")], []⟩
    else Except.ok ⟨[pyStr ("b")], []⟩

/-- Resulting state of the two-sales-files scenario: one relation in the
store, two lines in the schema text. -/
def stTwoSales : LoadState :=
  ⟨[(pyStr ("sales"), ⟨[pyStr ("b")], []⟩)], pyStr ("sales(a)\nsales(b)\n")⟩

/-- pandas oracle for the re-upload scenario: Sales.csv carries the old
data (column a, one row), sales.csv carries the new data (column b, one
row); both derive the table name "sales". -/
def rdReupload : UpFile → Except Str Df :=
  fun f =>
    if f.name = pyStr ("Sales.csv") then Except.ok ⟨[pyStr ("a")], [[pyStr ("1")]]⟩
    else Except.ok ⟨[pyStr ("b")], [[pyStr ("2")]]⟩

/-- Resulting state of the re-upload scenario. -/
def stReupload : LoadState :=
  ⟨[(pyStr ("sales"), ⟨[pyStr ("b")], [[pyStr ("2")]]⟩)],
   pyStr ("sales(a)\nsales(b)\n")⟩

/-! ### The claims -/

/-- Claim C1: for every raw external-model response, ask_ai returns text
ending in exactly one statement terminator (code point 59) and
containing no other terminator: the extraction keeps everything before
the first semicolon and re-appends one semicolon; on a successful call
the returned statement is exactly the extraction of the stripped raw
response; and the raw response of three backticks, sql, SELECT 1;
SELECT 2;, three backticks yields exactly SELECT 1 with one
semicolon. -/
theorem c1_ask_ai_single_terminator :
    (∀ raw : Str,
      List.count 59 (askExtract raw) = 1 ∧ (askExtract raw).getLast? = some 59) ∧
    (∀ (api : Str → Except Str Str) (schema question raw : Str),
      api (askPrompt schema question) = Except.ok raw →
      ask_ai api schema question = Except.ok (askExtract (pyStrip raw))) ∧
    askExtract (pyStrip (pyStr ("```sql SELECT 1; SELECT 2;```"))) = pyStr ("SELECT 1;") := by
  refine ⟨fun raw => ⟨?_, ?_⟩, fun api schema question raw h => ?_, rfl⟩
  · unfold askExtract
    rw [List.count_append, beforeSemi_count]
    rfl
  · unfold askExtract
    exact List.getLast?_concat _
  · simp [ask_ai, call_ai, h, Except.map]

/-- Witness for claim C1 at a concrete model response. -/
theorem c1_witness :
    ask_ai (fun _ => Except.ok (pyStr ("```sql SELECT 1; SELECT 2;```"))) [] [] =
      Except.ok (askExtract (pyStrip (pyStr ("```sql SELECT 1; SELECT 2;```")))) :=
  c1_ask_ai_single_terminator.2.1 _ [] [] _ rfl

/-- Claim C2: for every statement on which the query engine fails,
run_sql catches the failure, emits the non-empty banner
"SQL Error: " followed by the engine message, and returns the empty
frame with zero rows and zero columns; being a total function it never
propagates the failure. -/
theorem c2_run_sql_catches :
    ∀ (execQ : Str → Except Str Df) (q e : Str),
      execQ q = Except.error e →
      run_sql execQ q = (emptyDf, [pyStr ("SQL Error: ") ++ e]) ∧
      emptyDf.rows = [] ∧ emptyDf.cols = [] ∧
      pyStr ("SQL Error: ") ++ e ≠ [] := by
  intro execQ q e h
  refine ⟨by simp [run_sql, h], rfl, rfl, ?_⟩
  intro hc
  rw [List.append_eq_nil] at hc
  exact absurd hc.1 (by decide)

/-- Witness for claim C2 at a concrete failing statement. -/
theorem c2_witness :
    run_sql (fun _ => Except.error (pyStr ("no such table: t"))) (pyStr ("SELECT * FROM t")) =
      (emptyDf, [pyStr ("SQL Error: ") ++ pyStr ("no such table: t")]) :=
  (c2_run_sql_catches _ _ _ rfl).1

/-- Claim C3: on an empty result table (zero rows) explain returns the
fixed no-data message and performs zero calls to the external model, and
the model is invoked only when the result has rows. -/
theorem c3_explain_empty_short_circuit :
    ∀ (api : Str → Except Str Str) (d : Df),
      (d.rows = [] → explain api d = (Except.ok noDataMsg, 0)) ∧
      ((explain api d).2 ≠ 0 → d.rows ≠ []) := by
  intro api d
  constructor
  · intro h
    have he : d.isEmpty = true := by simp [Df.isEmpty, h]
    simp [explain, he]
  · intro hcalls hrows
    have he : d.isEmpty = true := by simp [Df.isEmpty, hrows]
    simp [explain, he] at hcalls

/-- Witness for claim C3 at a concrete empty result. -/
theorem c3_witness :
    explain (fun _ => Except.ok []) ⟨[pyStr ("product")], []⟩ = (Except.ok noDataMsg, 0) :=
  (c3_explain_empty_short_circuit (fun _ => Except.ok []) ⟨[pyStr ("product")], []⟩).1 rfl

/-- Counterexample to claim C4: uploading sales.csv with header row
"Date, Product, Quantity, Price" produces the relation sales, but the
column names keep their original case: line 35 strips whitespace and
replaces spaces by underscores and never lower-cases, so the columns are
Date, Product, Quantity, Price and not date, product, quantity,
price. -/
theorem c4_counterexample :
    loadFiles rdSales [⟨pyStr ("sales.csv")⟩] = Except.ok stSales ∧
    getTable stSales.tables (pyStr ("sales")) =
      some ⟨[pyStr ("Date"), pyStr ("Product"), pyStr ("Quantity"), pyStr ("Price")], []⟩ ∧
    [pyStr ("Date"), pyStr ("Product"), pyStr ("Quantity"), pyStr ("Price")] ≠
      [pyStr ("date"), pyStr ("product"), pyStr ("quantity"), pyStr ("price")] :=
  ⟨rfl, rfl, by decide⟩

/-- Claim C4 amended: uploading a file named sales.csv whose header row
is "Date, Product, Quantity, Price" produces a relation named sales
whose column names are exactly Date, Product, Quantity, Price (stripped
of the blanks after the commas, original case kept). -/
theorem c4_amended_columns_casing :
    loadFiles rdSales [⟨pyStr ("sales.csv")⟩] = Except.ok stSales ∧
    stSales.tables.map Prod.fst = [pyStr ("sales")] ∧
    stSales.tables.map (fun p => p.2.cols) =
      [[pyStr ("Date"), pyStr ("Product"), pyStr ("Quantity"), pyStr ("Price")]] :=
  ⟨rfl, rfl, rfl⟩

/-- Counterexample to claim C5: the derived table name is not the file
name without its extension; line 34 deletes every ".csv" occurrence, so
the file name "a.csv b.csv" derives the table name "a_b" while removing
only the extension (as the claim states) would give "a.csv_b". -/
theorem c5_counterexample :
    tableName (pyStr ("a.csv b.csv")) = pyStr ("a_b") ∧
    specTableName (pyStr ("a.csv b.csv")) = pyStr ("a.csv_b") ∧
    tableName (pyStr ("a.csv b.csv")) ≠ specTableName (pyStr ("a.csv b.csv")) :=
  ⟨rfl, rfl, by decide⟩

/-- Claim C5 amended: the derived table name is the file name with every
".csv" occurrence removed, lower-cased, spaces replaced by underscores;
hence it never contains an upper-case ASCII letter (code points 65-90)
or a space (code point 32); and each column name contains no space and
neither starts nor ends with whitespace. -/
theorem c5_amended_normalization :
    (∀ (fname : Str) (n : Nat), n ∈ tableName fname → ¬(65 ≤ n ∧ n ≤ 90) ∧ n ≠ 32) ∧
    (∀ (cols : List Str) (s : Str), s ∈ normalizeCols cols →
      (∀ n, n ∈ s → n ≠ 32) ∧
      (∀ n, s.head? = some n → isWs n = false) ∧
      (∀ n, s.getLast? = some n → isWs n = false)) ∧
    tableName (pyStr ("a.csv b.csv")) = pyStr ("a_b") := by
  refine ⟨?_, ?_, rfl⟩
  · intro fname n hn
    unfold tableName at hn
    rw [listReplace_space_underscore] at hn
    rcases List.mem_map.1 hn with ⟨m, hm, hsub⟩
    subst hsub
    unfold pyLower at hm
    rcases List.mem_map.1 hm with ⟨k, _, hlow⟩
    subst hlow
    by_cases hm32 : lowerChar k = 32
    · rw [if_pos hm32]
      exact ⟨by omega, by omega⟩
    · rw [if_neg hm32]
      exact ⟨lowerChar_not_upper k, hm32⟩
  · intro cols s hs
    unfold normalizeCols at hs
    rcases List.mem_map.1 hs with ⟨c, _, hc⟩
    subst hc
    rw [listReplace_space_underscore]
    refine ⟨?_, ?_, ?_⟩
    · intro n hn
      rcases List.mem_map.1 hn with ⟨m, _, hsub⟩
      subst hsub
      split <;> omega
    · intro n hn
      rw [List.head?_map] at hn
      rcases Option.map_eq_some'.1 hn with ⟨m, hm, hfm⟩
      subst hfm
      have hws := pyStrip_head_not_ws c m hm
      have hm32 : m ≠ 32 := by
        intro h32
        rw [h32] at hws
        exact absurd hws (by decide)
      rw [if_neg hm32]
      exact hws
    · intro n hn
      rw [List.getLast?_map] at hn
      rcases Option.map_eq_some'.1 hn with ⟨m, hm, hfm⟩
      subst hfm
      have hws := pyStrip_getLast_not_ws c m hm
      have hm32 : m ≠ 32 := by
        intro h32
        rw [h32] at hws
        exact absurd hws (by decide)
      rw [if_neg hm32]
      exact hws

/-- Witness for the amended claim C5 at concrete inputs: the letter a
(code point 97) of the table name derived from "A B.csv", and the
normalized column derived from " Unit Price ". -/
theorem c5_witness :
    (¬(65 ≤ 97 ∧ 97 ≤ 90) ∧ 97 ≠ 32) ∧
    (∀ n, n ∈ pyStr ("Unit_Price") → n ≠ 32) :=
  ⟨c5_amended_normalization.1 (pyStr ("A B.csv")) 97 (by decide),
   (c5_amended_normalization.2.1 [pyStr (" Unit Price ")] (pyStr ("Unit_Price")) (by decide)).1⟩

/-- Counterexample to claim C6: with a malformed bad.csv followed by a
readable good.csv, the whole batch aborts with the parser error and
good.csv is not loaded, although good.csv alone loads fine; lines 31-32
have no per-file error handling, so other files do not continue loading
independently. -/
theorem c6_counterexample :
    loadFiles rdBadGood [⟨pyStr ("bad.csv")⟩, ⟨pyStr ("good.csv")⟩] =
      Except.error (pyStr ("parse error")) ∧
    loadFiles rdBadGood [⟨pyStr ("good.csv")⟩] =
      Except.ok ⟨[(pyStr ("good"), ⟨[pyStr ("a")], []⟩)], pyStr ("good(a)\n")⟩ :=
  ⟨rfl, rfl⟩

/-- Claim C6 amended: a malformed or unreadable uploaded file makes the
whole upload loop abort with the raised error; the files after it in the
batch are not loaded at all (there is no per-file isolation). -/
theorem c6_amended_batch_aborts :
    ∀ (r : UpFile → Except Str Df) (st : LoadState) (f : UpFile)
      (rest : List UpFile) (e : Str),
      r f = Except.error e →
      loadFilesFrom r st (f :: rest) = Except.error e := by
  intro r st f rest e h
  simp [loadFilesFrom, loadFile, h]

/-- Witness for the amended claim C6 at the concrete bad batch. -/
theorem c6_witness :
    loadFilesFrom rdBadGood ⟨[], []⟩ [⟨pyStr ("bad.csv")⟩, ⟨pyStr ("good.csv")⟩] =
      Except.error (pyStr ("parse error")) :=
  c6_amended_batch_aborts rdBadGood ⟨[], []⟩ ⟨pyStr ("bad.csv")⟩
    [⟨pyStr ("good.csv")⟩] (pyStr ("parse error")) rfl

/-- Counterexample to claim C7: two uploaded files Sales.csv and
sales.csv both derive the table name sales; after the batch the store
holds one relation but the schema text holds two lines (the stale
sales(a) line and the live sales(b) line), so the schema text does not
list exactly the current relation set with one line per relation. -/
theorem c7_counterexample :
    loadFiles rdTwoSales [⟨pyStr ("Sales.csv")⟩, ⟨pyStr ("sales.csv")⟩] =
      Except.ok stTwoSales ∧
    stTwoSales.tables.length = 1 ∧
    List.count 10 stTwoSales.schema = 2 ∧
    stTwoSales.schema ≠ schemaLine (pyStr ("sales")) [pyStr ("b")] :=
  ⟨rfl, rfl, rfl, by decide⟩

/-- Claim C7 amended: after any sequence of uploads the relation names
in the store are unique (replacement, never duplication), but the schema
text grows by exactly one line per uploaded file, not per relation, so
it matches the relation set only when all derived names are distinct. -/
theorem c7_amended_schema_per_file :
    (∀ (r : UpFile → Except Str Df) (files : List UpFile) (s : LoadState),
      loadFiles r files = Except.ok s → (s.tables.map Prod.fst).Nodup) ∧
    (∀ (r : UpFile → Except Str Df) (st : LoadState) (f : UpFile) (d : Df),
      r f = Except.ok d →
      loadFile r st f =
        Except.ok ⟨setTable st.tables (tableName f.name) ⟨normalizeCols d.cols, d.rows⟩,
          st.schema ++ schemaLine (tableName f.name) (normalizeCols d.cols)⟩) := by
  constructor
  · intro r files s h
    exact loadFilesFrom_nodup r files ⟨[], []⟩ s (by simp) h
  · intro r st f d h
    simp [loadFile, h]

/-- Witness for the amended claim C7 at the two-sales-files batch. -/
theorem c7_witness :
    (stTwoSales.tables.map Prod.fst).Nodup ∧
    loadFile rdTwoSales ⟨[], []⟩ ⟨pyStr ("Sales.csv")⟩ =
      Except.ok ⟨[(pyStr ("sales"), ⟨[pyStr ("a")], []⟩)],
        schemaLine (pyStr ("sales")) [pyStr ("a")]⟩ :=
  ⟨c7_amended_schema_per_file.1 rdTwoSales
      [⟨pyStr ("Sales.csv")⟩, ⟨pyStr ("sales.csv")⟩] stTwoSales rfl,
   c7_amended_schema_per_file.2 rdTwoSales ⟨[], []⟩ ⟨pyStr ("Sales.csv")⟩
      ⟨[pyStr ("a")], []⟩ rfl⟩

/-- Claim C8: a failed external-model call propagates out of ask_ai and
out of explain as the same distinguishable error; ask_ai never turns it
into a successful empty statement and explain (which calls the model
exactly when the frame is non-empty) never turns it into a successful
blank summary. -/
theorem c8_model_failure_propagates :
    (∀ (api : Str → Except Str Str) (schema question e : Str),
      api (askPrompt schema question) = Except.error e →
      ask_ai api schema question = Except.error e) ∧
    (∀ (api : Str → Except Str Str) (d : Df) (e : Str),
      d.isEmpty = false →
      api (explainPrompt d) = Except.error e →
      explain api d = (Except.error e, 1)) := by
  constructor
  · intro api schema question e h
    simp [ask_ai, call_ai, h, Except.map]
  · intro api d e hne h
    simp [explain, hne, call_ai, h, Except.map]

/-- Witness for claim C8 at a concrete timeout failure. -/
theorem c8_witness :
    ask_ai (fun _ => Except.error (pyStr ("timeout"))) [] [] =
      Except.error (pyStr ("timeout")) ∧
    explain (fun _ => Except.error (pyStr ("timeout"))) ⟨[pyStr ("a")], [[pyStr ("1")]]⟩ =
      (Except.error (pyStr ("timeout")), 1) :=
  ⟨c8_model_failure_propagates.1 (fun _ => Except.error (pyStr ("timeout"))) [] []
      (pyStr ("timeout")) rfl,
   c8_model_failure_propagates.2 (fun _ => Except.error (pyStr ("timeout")))
      ⟨[pyStr ("a")], [[pyStr ("1")]]⟩ (pyStr ("timeout")) rfl rfl⟩

/-- Claim C9: loading a batch that ends with a file replaces the
relation under that file derived table name with exactly the new file
frame (normalized columns, the new rows and nothing else), whatever was
stored under that name before. -/
theorem c9_reupload_replaces :
    ∀ (r : UpFile → Except Str Df) (fs : List UpFile) (f : UpFile) (d : Df)
      (s : LoadState),
      r f = Except.ok d →
      loadFiles r (fs ++ [f]) = Except.ok s →
      getTable s.tables (tableName f.name) = some ⟨normalizeCols d.cols, d.rows⟩ := by
  intro r fs f d s hr hload
  unfold loadFiles at hload
  rw [loadFilesFrom_append] at hload
  cases hfs : loadFilesFrom r ⟨[], []⟩ fs with
  | error e => rw [hfs] at hload; cases hload
  | ok s1 =>
    rw [hfs] at hload
    have hload2 : loadFilesFrom r s1 [f] = Except.ok s := hload
    rw [loadFilesFrom_single] at hload2
    simp only [loadFile, hr, Except.ok.injEq] at hload2
    subst hload2
    exact getTable_setTable _ _ _

/-- Witness for claim C9: re-uploading under the derived name sales
leaves exactly the new frame with column b in the store. -/
theorem c9_witness :
    getTable stReupload.tables (tableName (pyStr ("sales.csv"))) =
      some ⟨normalizeCols [pyStr ("b")], [[pyStr ("2")]]⟩ :=
  c9_reupload_replaces rdReupload [⟨pyStr ("Sales.csv")⟩] ⟨pyStr ("sales.csv")⟩
    ⟨[pyStr ("b")], [[pyStr ("2")]]⟩ stReupload rfl rfl

/-- Claim C10: the table-name derivation deletes every occurrence of
".csv" from the file name, not only a trailing extension: it equals the
scanning deletion of every ".csv" occurrence followed by lower-casing
and space-to-underscore replacement; the file name "a.csv b.csv" derives
the table name "a_b", not the "a.csv_b" that stripping only a trailing
extension would give. -/
theorem c10_csv_removed_everywhere :
    (∀ fname : Str,
      tableName fname =
        listReplace (pyStr (" ")) (pyStr ("_")) (pyLower (removeAllCsv fname))) ∧
    tableName (pyStr ("a.csv b.csv")) = pyStr ("a_b") ∧
    tableName (pyStr ("a.csv b.csv")) ≠ specTableName (pyStr ("a.csv b.csv")) := by
  refine ⟨fun fname => ?_, rfl, by decide⟩
  unfold tableName
  rw [listReplace_csv]
